import Mathlib

set_option autoImplicit false

/-!
Shallow embedding of the `ractor` actor-handle core
(`src/ractor/src/actor/actor_cell.rs`) and the timer helpers
(`src/ractor/src/time/mod.rs`).

Machine integers are modelled as `Nat` with explicit `% 2 ^ w` where
overflow matters.  Channels (tokio `mpsc`) are modelled as explicit
queue state plus a channel identifier; the sending end carries the
queue state and the receiving end carries the identifier of the channel
it drains.  Modules of the repository that are not present under `src/`
(the supervision tree in `supervision.rs`, the rpc layer in `rpc.rs`,
the error and message types, and the crate-level id allocator) are
modelled from the specification; each such definition says so in its
doc comment.
-/

namespace Ractor

/-- `ActorId`: a `u64` assigned from the global allocator. -/
abbrev ActorId := Nat

/-- `ActorStatus` from `actor_cell.rs`, `repr(u8)` with discriminants 0..5. -/
inductive ActorStatus : Type
  | Unstarted
  | Starting
  | Running
  | Upgrading
  | Stopping
  | Stopped
deriving DecidableEq, Repr

/-- The `status as u8` cast: the `repr(u8)` discriminant of the variant. -/
def ActorStatus.toU8 : ActorStatus → Nat
  | .Unstarted => 0
  | .Starting => 1
  | .Running => 2
  | .Upgrading => 3
  | .Stopping => 4
  | .Stopped => 5

/-- `ACTIVE_STATES` from `actor_cell.rs`: states where operations can
continue to interact with an agent. -/
def ACTIVE_STATES : List ActorStatus :=
  [ActorStatus.Starting, ActorStatus.Running, ActorStatus.Upgrading]

/-- Modelled from the spec: `Signal` (in `messages.rs`, not under `src/`)
is a small fixed set of control signals, at minimum `Exit`. -/
inductive Signal : Type
  | Exit
deriving DecidableEq, Repr

/-- Modelled from the spec: a supervision event (child lifecycle
notification); its payload is irrelevant here, so it is an opaque tag. -/
structure SupervisionEvent : Type where
  tag : Nat
deriving DecidableEq, Repr

/-- Modelled from the spec: a type-erased boxed message envelope; its
payload is opaque at the port boundary, so it is an opaque tag here. -/
structure BoxedMessage : Type where
  payload : Nat
deriving DecidableEq, Repr

/-- Modelled from the spec (`errors.rs` not under `src/`): a messaging
error is either "receiving port closed" or, for the bounded signal
port, "queue full". -/
inductive MessagingErr : Type
  | ChannelClosed
  | ChannelFull
deriving DecidableEq, Repr

/-- Sending half of a tokio bounded mpsc channel, carrying the channel
state: identifier, capacity, queued elements, and whether the receiver
is gone. -/
structure BoundedChan (α : Type) : Type where
  cid : Nat
  capacity : Nat
  buffer : List α
  closed : Bool

/-- Receiving half of a bounded channel: the identifier of the channel
it drains. -/
structure BoundedReceiver (α : Type) : Type where
  cid : Nat
deriving DecidableEq, Repr

/-- Sending half of a tokio unbounded mpsc channel. -/
structure UnboundedChan (α : Type) : Type where
  cid : Nat
  buffer : List α
  closed : Bool

/-- Receiving half of an unbounded channel. -/
structure UnboundedReceiver (α : Type) : Type where
  cid : Nat
deriving DecidableEq, Repr

/-- `tokio::sync::mpsc::channel(cap)`: a fresh bounded channel, both
halves referring to the same channel identifier. -/
def mpscChannel (α : Type) (cap : Nat) (cid : Nat) :
    BoundedChan α × BoundedReceiver α :=
  ({ cid := cid, capacity := cap, buffer := [], closed := false }, { cid := cid })

/-- `tokio::sync::mpsc::unbounded_channel()`. -/
def mpscUnboundedChannel (α : Type) (cid : Nat) :
    UnboundedChan α × UnboundedReceiver α :=
  ({ cid := cid, buffer := [], closed := false }, { cid := cid })

/-- `Sender::try_send`: non-blocking; fails fast with `ChannelClosed`
when the receiver is gone and with `ChannelFull` when the queue holds
`capacity` elements, otherwise enqueues at the back. -/
def BoundedChan.try_send {α : Type} (c : BoundedChan α) (x : α) :
    BoundedChan α × Except MessagingErr Unit :=
  if c.closed then (c, Except.error MessagingErr.ChannelClosed)
  else if c.capacity ≤ c.buffer.length then (c, Except.error MessagingErr.ChannelFull)
  else ({ c with buffer := c.buffer ++ [x] }, Except.ok ())

/-- `UnboundedSender::send`: never blocks and never reports a full
queue; fails only when the receiver is gone. -/
def UnboundedChan.send {α : Type} (c : UnboundedChan α) (x : α) :
    UnboundedChan α × Except MessagingErr Unit :=
  if c.closed then (c, Except.error MessagingErr.ChannelClosed)
  else ({ c with buffer := c.buffer ++ [x] }, Except.ok ())

/-- Modelled from the spec (`supervision.rs` not under `src/`): per
actor, two sets of handles, `parents` and `children`, with handles
identified by their `ActorId`. -/
structure SupervisionTree : Type where
  parents : Finset ActorId
  children : Finset ActorId
deriving DecidableEq

/-- `SupervisionTree::default()`: both sets empty. -/
def SupervisionTree.default : SupervisionTree :=
  { parents := ∅, children := ∅ }

/-- Modelled from the spec: set-semantics add (duplicate insert is
idempotent). -/
def SupervisionTree.insert_parent (t : SupervisionTree) (h : ActorId) :
    SupervisionTree :=
  { t with parents := insert h t.parents }

/-- Modelled from the spec: set-semantics add into `children`. -/
def SupervisionTree.insert_child (t : SupervisionTree) (h : ActorId) :
    SupervisionTree :=
  { t with children := insert h t.children }

/-- Modelled from the spec: set-semantics remove (absent element is a
no-op). -/
def SupervisionTree.remove_parent (t : SupervisionTree) (h : ActorId) :
    SupervisionTree :=
  { t with parents := t.parents.erase h }

/-- Modelled from the spec: set-semantics remove from `children`. -/
def SupervisionTree.remove_child (t : SupervisionTree) (h : ActorId) :
    SupervisionTree :=
  { t with children := t.children.erase h }

/-- `ActorProperties` from `actor_cell.rs`: identity, name, the shared
status byte (the `Arc<AtomicU8>` contents), the three sending ends,
and the supervision tree. -/
structure ActorProperties : Type where
  id : ActorId
  name : Option String
  statusByte : Nat
  signal : BoundedChan Signal
  supervision : UnboundedChan SupervisionEvent
  message : UnboundedChan BoxedMessage
  tree : SupervisionTree

/-- The decoding match inside `ActorProperties::get_status`. -/
def statusOfByte : Nat → ActorStatus
  | 0 => ActorStatus.Unstarted
  | 1 => ActorStatus.Starting
  | 2 => ActorStatus.Running
  | 3 => ActorStatus.Upgrading
  | 4 => ActorStatus.Stopping
  | _ => ActorStatus.Stopped

/-- `ActorProperties::get_status`: load the shared byte and decode it. -/
def ActorProperties.get_status (p : ActorProperties) : ActorStatus :=
  statusOfByte p.statusByte

/-- `ActorProperties::set_status`: store `status as u8` (an `AtomicU8`
store, hence taken mod 2^8). -/
def ActorProperties.set_status (p : ActorProperties) (s : ActorStatus) :
    ActorProperties :=
  { p with statusByte := s.toU8 % 2 ^ 8 }

/-- `ActorProperties::send_signal`: `try_send` on the bounded signal
port. -/
def ActorProperties.send_signal (p : ActorProperties) (s : Signal) :
    ActorProperties × Except MessagingErr Unit :=
  let r := p.signal.try_send s
  ({ p with signal := r.1 }, r.2)

/-- `ActorProperties::send_supervisor_evt`: send on the unbounded
supervision port. -/
def ActorProperties.send_supervisor_evt (p : ActorProperties)
    (e : SupervisionEvent) : ActorProperties × Except MessagingErr Unit :=
  let r := p.supervision.send e
  ({ p with supervision := r.1 }, r.2)

/-- `ActorProperties::send_message`: send on the unbounded message
port. -/
def ActorProperties.send_message (p : ActorProperties) (m : BoxedMessage) :
    ActorProperties × Except MessagingErr Unit :=
  let r := p.message.send m
  ({ p with message := r.1 }, r.2)

/-- The result tuple of `ActorProperties::new`: the properties plus the
three receiving ends. -/
structure NewResult : Type where
  props : ActorProperties
  signal_rx : BoundedReceiver Signal
  supervision_rx : UnboundedReceiver SupervisionEvent
  message_rx : UnboundedReceiver BoxedMessage

/-- `ActorProperties::new`: creates the three channels (`channel(2)`
and two unbounded ones, given local identifiers 0, 1, 2 in creation
order) and draws `id` from the global allocator by `fetch_add(1)`.
The allocator (`ACTOR_ID_ALLOCATOR`, declared at the crate root which
is not under `src/`) is modelled from the spec as explicit
process-wide `u64` state threaded through construction. -/
def ActorProperties.new (name : Option String) (alloc : Nat) :
    NewResult × Nat :=
  let c1 := mpscChannel Signal 2 0
  let c2 := mpscUnboundedChannel SupervisionEvent 1
  let c3 := mpscUnboundedChannel BoxedMessage 2
  ({ props :=
      { id := alloc % 2 ^ 64
        name := name
        statusByte := ActorStatus.Unstarted.toU8 % 2 ^ 8
        signal := c1.1
        supervision := c2.1
        message := c3.1
        tree := SupervisionTree.default }
     signal_rx := c1.2
     supervision_rx := c2.2
     message_rx := c3.2 },
   (alloc + 1) % 2 ^ 64)

/-- `ActorCell` from `actor_cell.rs`: an `Arc` around the properties;
in this embedding the shared state is the properties value itself. -/
structure ActorCell : Type where
  inner : ActorProperties

/-- `Clone for ActorCell`: an `Arc` clone observes the same underlying
properties. -/
def ActorCell.clone (c : ActorCell) : ActorCell := c

/-- `ActorPortSet` from `actor_cell.rs`: the three receiving ends. -/
structure ActorPortSet : Type where
  signal_rx : BoundedReceiver Signal
  supervisor_rx : UnboundedReceiver SupervisionEvent
  message_rx : UnboundedReceiver BoxedMessage
deriving DecidableEq, Repr

/-- `ActorCell::new`: builds the properties and hands the receiving
ends out exactly once, packaged as the `ActorPortSet`. -/
def ActorCell.new (name : Option String) (alloc : Nat) :
    (ActorCell × ActorPortSet) × Nat :=
  let r := ActorProperties.new name alloc
  (({ inner := r.1.props },
    { signal_rx := r.1.signal_rx
      supervisor_rx := r.1.supervision_rx
      message_rx := r.1.message_rx }),
   r.2)

/-- `ActorCell::get_id`. -/
def ActorCell.get_id (c : ActorCell) : ActorId := c.inner.id

/-- `ActorCell::get_name`. -/
def ActorCell.get_name (c : ActorCell) : Option String := c.inner.name

/-- `ActorCell::get_status`. -/
def ActorCell.get_status (c : ActorCell) : ActorStatus :=
  c.inner.get_status

/-- `ActorCell::set_status`. -/
def ActorCell.set_status (c : ActorCell) (s : ActorStatus) : ActorCell :=
  { c with inner := c.inner.set_status s }

/-- `ActorCell::stop`: best-effort `send_signal(Signal::Exit)` whose
result is discarded (`let _ = ...`); the caller always gets back `()`. -/
def ActorCell.stop (c : ActorCell) : ActorCell × Unit :=
  (({ c with inner := (c.inner.send_signal Signal.Exit).1 }), ())

/-- Modelled from the spec: `stop(reason: optional string)`.  In
`actor_cell.rs` under `src/`, `stop` takes no reason; the variant with
an optional reason (which `time/mod.rs` calls) attaches the reason to
the eventual exit but performs the same best-effort Exit-signal send. -/
def ActorCell.stopWithReason (c : ActorCell) (_reason : Option String) :
    ActorCell × Unit :=
  ActorCell.stop c

/-- `ActorCell::terminate`: if the current status is at or below
`Upgrading`, call `stop` on self (best-effort Exit); then, in every
case, instruct every current child of the supervision tree to
terminate (`tree.terminate_children()`, modelled from the spec since
`supervision.rs` is not under `src/`: it invokes `terminate` on every
current child, in an unspecified order).  The returned `Bool` records
whether `stop` was invoked and the returned list records which
children were instructed to terminate. -/
def ActorCell.terminate (c : ActorCell) : ActorCell × Bool × List ActorId :=
  if c.get_status.toU8 ≤ ActorStatus.Upgrading.toU8 then
    ((ActorCell.stop c).1, true, c.inner.tree.children.sort (· ≤ ·))
  else
    (c, false, c.inner.tree.children.sort (· ≤ ·))

/-- The supervision trees of all actors in the process, keyed by
`ActorId` (handles are identified by their id, which is unique per
actor). -/
def TreeWorld := ActorId → SupervisionTree

/-- Mutate one actor's supervision tree in place. -/
def TreeWorld.upd (w : TreeWorld) (a : ActorId) (f : SupervisionTree → SupervisionTree) :
    TreeWorld :=
  fun x => if x = a then f (w x) else w x

/-- `ActorCell::link(self, supervisor)`: first
`supervisor.inner.tree.insert_parent(self)`, then
`self.inner.tree.insert_child(supervisor)` (the two statements of the
source, in order). -/
def TreeWorld.link (w : TreeWorld) (self supervisor : ActorId) : TreeWorld :=
  (w.upd supervisor (fun t => t.insert_parent self)).upd self
    (fun t => t.insert_child supervisor)

/-- `ActorCell::unlink(self, supervisor)`: first
`supervisor.inner.tree.remove_parent(self)`, then
`self.inner.tree.remove_child(supervisor)`. -/
def TreeWorld.unlink (w : TreeWorld) (self supervisor : ActorId) : TreeWorld :=
  (w.upd supervisor (fun t => t.remove_parent self)).upd self
    (fun t => t.remove_child supervisor)

/-- One operation of a link/unlink sequence between a fixed child and
supervisor pair. -/
inductive LinkOp : Type
  | link
  | unlink
deriving DecidableEq, Repr

/-- Run a sequence of link/unlink calls between child `c` and
supervisor `p` against the world. -/
def TreeWorld.runOps (w : TreeWorld) (c p : ActorId) : List LinkOp → TreeWorld
  | [] => w
  | LinkOp.link :: rest => (w.link c p).runOps c p rest
  | LinkOp.unlink :: rest => (w.unlink c p).runOps c p rest

/-- A sequence of link/unlink calls is matched when every unlink
matches a previously opened link and every link is eventually closed:
running a counter from `k` open links, each `link` increments it, each
`unlink` must find a positive counter and decrements it, and the
sequence ends with zero open links. -/
def matchedFrom : Nat → List LinkOp → Bool
  | k, [] => decide (k = 0)
  | k, LinkOp.link :: rest => matchedFrom (k + 1) rest
  | 0, LinkOp.unlink :: _ => false
  | k + 1, LinkOp.unlink :: rest => matchedFrom k rest

/-- Modelled from the spec (`rpc.rs` not under `src/`): the fate of the
one-shot reply slot embedded in a call message.  Ownership of the slot
guarantees that it is eventually either written (at some instant `t`)
or dropped without a value (at some instant `t`). -/
inductive SlotFate (α : Type) : Type
  | writtenAt (v : α) (t : Nat)
  | droppedAt (t : Nat)
deriving DecidableEq, Repr

/-- The instant at which the reply slot is resolved. -/
def SlotFate.time {α : Type} : SlotFate α → Nat
  | .writtenAt _ t => t
  | .droppedAt t => t

/-- Modelled from the spec: the three mutually exclusive terminal
outcomes of a `call`. -/
inductive CallResult (α : Type) : Type
  | Success (r : α)
  | NoReply
  | Timeout
deriving DecidableEq, Repr

/-- Modelled from the spec: the await phase of `call` — a race between
the reply slot being resolved at `fate.time` and the optional timeout
elapsing at instant `d`; whichever happens first decides the outcome. -/
def resolveCall {α : Type} (timeout : Option Nat) (fate : SlotFate α) :
    CallResult α :=
  match timeout with
  | none =>
    match fate with
    | .writtenAt v _ => CallResult.Success v
    | .droppedAt _ => CallResult.NoReply
  | some d =>
    if d < fate.time then CallResult.Timeout
    else
      match fate with
      | .writtenAt v _ => CallResult.Success v
      | .droppedAt _ => CallResult.NoReply

/-- Modelled from the spec (`rpc.rs` not under `src/`): `call` builds
the message around a fresh reply slot, enqueues it with
`send_message`, and, when the enqueue succeeded, awaits the race
between the slot's fate and the timeout.  A failed enqueue is the only
error exit. -/
def ActorProperties.call {α : Type} (p : ActorProperties) (m : BoxedMessage)
    (timeout : Option Nat) (fate : SlotFate α) :
    ActorProperties × Except MessagingErr (CallResult α) :=
  let s := p.send_message m
  match s.2 with
  | Except.error e => (s.1, Except.error e)
  | Except.ok _ => (s.1, Except.ok (resolveCall timeout fate))

/-- The environment of one `send_interval` background loop: what
`actor.get_status()` returns when iteration `i` checks it, and whether
the `send_message` of iteration `i` fails.  This abstracts the
concurrently running actor that the loop observes. -/
structure IntervalEnv : Type where
  statusAt : Nat → ActorStatus
  sendFailsAt : Nat → Bool

/-- `send_interval`'s loop from `time/mod.rs`, as the list of iteration
indices at which a `send_message` is attempted: while the observed
status is in `ACTIVE_STATES`, sleep, then attempt a send, and break
out of the loop on the first send error.  `fuel` bounds how many
iterations are unfolded; the loop itself may run forever when the
actor stays active and sends keep succeeding. -/
def sendIntervalSends (env : IntervalEnv) : Nat → Nat → List Nat
  | 0, _ => []
  | fuel + 1, i =>
    if env.statusAt i ∈ ACTIVE_STATES then
      if env.sendFailsAt i then [i]
      else i :: sendIntervalSends env fuel (i + 1)
    else []

/-- `send_after` from `time/mod.rs`: the spawned task sleeps for the
period (not modelled — no real time in the embedding) and then
performs exactly one `send_message`, whose result is the task's
result. -/
def sendAfter (a : ActorCell) (m : BoxedMessage) :
    ActorCell × Except MessagingErr Unit :=
  let r := a.inner.send_message m
  ({ a with inner := r.1 }, r.2)

/-- `exit_after` from `time/mod.rs`: the spawned task sleeps and then
calls `stop` with the reason `"Exit after {}ms"`. -/
def exitAfter (periodMs : Nat) (a : ActorCell) : ActorCell × Unit :=
  a.stopWithReason (some ("Exit after " ++ toString periodMs ++ "ms"))

/-- The global `ACTOR_ID_ALLOCATOR` state after `n` constructions,
starting from the fixed initial value 0 (modelled from the spec) and
advanced by each `ActorProperties::new`. -/
def allocAfter : Nat → Nat
  | 0 => 0
  | n + 1 => (ActorProperties.new none (allocAfter n)).2

/-- The `ActorId` assigned to the `n`-th construction (0-based). -/
def assignedId (n : Nat) : ActorId :=
  (ActorProperties.new none (allocAfter n)).1.props.id

/-!  Theorems. -/

/-- Claim C9: `get_status` is total for every stored status byte — it
decodes bytes 0, 1, 2, 3, 4 to `Unstarted`, `Starting`, `Running`,
`Upgrading`, `Stopping` respectively, and decodes every byte value 5
or greater to `Stopped`, so an out-of-range stored value reads as
`Stopped` rather than producing an error. -/
theorem get_status_total_decoding :
    (∀ p : ActorProperties, p.get_status = statusOfByte p.statusByte) ∧
    statusOfByte 0 = ActorStatus.Unstarted ∧
    statusOfByte 1 = ActorStatus.Starting ∧
    statusOfByte 2 = ActorStatus.Running ∧
    statusOfByte 3 = ActorStatus.Upgrading ∧
    statusOfByte 4 = ActorStatus.Stopping ∧
    (∀ b : Nat, 5 ≤ b → statusOfByte b = ActorStatus.Stopped) := by
  refine ⟨fun _ => rfl, rfl, rfl, rfl, rfl, rfl, fun b hb => ?_⟩
  obtain ⟨k, rfl⟩ : ∃ k, b = k + 5 := ⟨b - 5, by omega⟩
  rfl

/-- Witness for C9 at the concrete out-of-range byte 9. -/
theorem get_status_total_decoding_witness :
    statusOfByte 9 = ActorStatus.Stopped :=
  get_status_total_decoding.2.2.2.2.2.2 9 (by norm_num)

/-- Claim C5: for every status `s`, after `set_status s` a `get_status`
on the same handle or any clone returns exactly `s`: the 8-bit
encoding stored by `set_status` and the decoding performed by
`get_status` round-trip for all six statuses. -/
theorem set_status_get_status_roundtrip (c : ActorCell) (s : ActorStatus) :
    (c.set_status s).get_status = s ∧
    ((c.set_status s).clone).get_status = s := by
  constructor <;> cases s <;> rfl

/-- Claim C4: `stop` always returns plain `()` to its caller; it
performs a single non-blocking `try_send` of the Exit signal and
discards the outcome, so a failed send (receiver gone or the size-2
signal queue full) leaves the queue untouched and is never observable
by the caller, while a successful one appends `Exit`.  The
reason-bearing variant behaves identically. -/
theorem stop_swallows_send_failure (c : ActorCell) (reason : Option String) :
    c.stopWithReason reason = c.stop ∧
    (c.stop).2 = () ∧
    (c.stop).1.inner.signal.buffer =
      (if c.inner.signal.closed = true ∨
          c.inner.signal.capacity ≤ c.inner.signal.buffer.length
       then c.inner.signal.buffer
       else c.inner.signal.buffer ++ [Signal.Exit]) ∧
    (c.stop).1.inner.signal.closed = c.inner.signal.closed ∧
    (c.stop).1.inner.statusByte = c.inner.statusByte ∧
    (c.stop).1.inner.id = c.inner.id ∧
    (c.stop).1.inner.tree = c.inner.tree := by
  by_cases h1 : c.inner.signal.closed = true
  · simp [ActorCell.stopWithReason, ActorCell.stop, ActorProperties.send_signal,
      BoundedChan.try_send, h1]
  · by_cases h2 : c.inner.signal.capacity ≤ c.inner.signal.buffer.length
    · simp [ActorCell.stopWithReason, ActorCell.stop, ActorProperties.send_signal,
        BoundedChan.try_send, h1, h2]
    · simp [ActorCell.stopWithReason, ActorCell.stop, ActorProperties.send_signal,
        BoundedChan.try_send, h1, h2]

/-- Claim C2: `terminate` invokes the Exit-signal send on itself
exactly when the current status is at or below `Upgrading`
(`Unstarted`, `Starting`, `Running` or `Upgrading`); when it does, the
state change is exactly that of `stop`, otherwise the state is
untouched; and in every case — including `Stopping` and `Stopped` —
every current child of the supervision tree, and nothing else, is
instructed to terminate. -/
theorem terminate_exit_and_children (c : ActorCell) :
    ((ActorCell.terminate c).2.1 = true ↔
      c.get_status ∈ [ActorStatus.Unstarted, ActorStatus.Starting,
        ActorStatus.Running, ActorStatus.Upgrading]) ∧
    (ActorCell.terminate c).1 =
      (if (ActorCell.terminate c).2.1 then (ActorCell.stop c).1 else c) ∧
    (∀ a : ActorId, a ∈ (ActorCell.terminate c).2.2 ↔ a ∈ c.inner.tree.children) := by
  cases h : c.get_status <;>
    simp [ActorCell.terminate, h, ActorStatus.toU8, Finset.mem_sort]

/-- Claim C10: the task body of `send_after` performs exactly one
`send_message` — the message queue grows by exactly the one message on
success and is unchanged on failure — its result is exactly the result
of that single send, and no status check happens beforehand: the
outcome is independent of the stored status byte. -/
theorem send_after_is_single_send (a : ActorCell) (m : BoxedMessage) (b : Nat) :
    (sendAfter a m).2 =
      (if a.inner.message.closed = true
       then Except.error MessagingErr.ChannelClosed
       else Except.ok ()) ∧
    (sendAfter a m).1.inner.message.buffer =
      (if a.inner.message.closed = true
       then a.inner.message.buffer
       else a.inner.message.buffer ++ [m]) ∧
    (sendAfter { a with inner := { a.inner with statusByte := b } } m).2 =
      (sendAfter a m).2 ∧
    (sendAfter a m).1.inner.statusByte = a.inner.statusByte := by
  by_cases h : a.inner.message.closed = true <;>
    simp [sendAfter, ActorProperties.send_message, UnboundedChan.send, h]

/-- Claim C6: construction creates exactly three channels together —
the signal port bounded with capacity 2 (fresh: empty and open), and
the supervision and message ports unbounded (their send can never
report a full queue) — the receiver handed out for each port drains
the very channel whose sending end the properties retain (matching
channel identifiers 0, 1, 2, pairwise distinct), `ActorCell::new`
returns those receivers exactly once packaged as the `ActorPortSet`,
and cloning a handle shares the same underlying sending ends. -/
theorem construction_ports (name : Option String) (alloc : Nat) :
    ((ActorProperties.new name alloc).1.props.signal.capacity = 2) ∧
    ((ActorProperties.new name alloc).1.props.signal.buffer = []) ∧
    ((ActorProperties.new name alloc).1.props.signal.closed = false) ∧
    ((ActorProperties.new name alloc).1.signal_rx.cid =
      (ActorProperties.new name alloc).1.props.signal.cid) ∧
    ((ActorProperties.new name alloc).1.supervision_rx.cid =
      (ActorProperties.new name alloc).1.props.supervision.cid) ∧
    ((ActorProperties.new name alloc).1.message_rx.cid =
      (ActorProperties.new name alloc).1.props.message.cid) ∧
    ((ActorProperties.new name alloc).1.props.signal.cid = 0) ∧
    ((ActorProperties.new name alloc).1.props.supervision.cid = 1) ∧
    ((ActorProperties.new name alloc).1.props.message.cid = 2) ∧
    (∀ e : SupervisionEvent,
      ((ActorProperties.new name alloc).1.props.supervision.send e).2 =
        Except.ok ()) ∧
    (∀ m : BoxedMessage,
      ((ActorProperties.new name alloc).1.props.message.send m).2 =
        Except.ok ()) ∧
    ((ActorCell.new name alloc).1.2 =
      { signal_rx := (ActorProperties.new name alloc).1.signal_rx
        supervisor_rx := (ActorProperties.new name alloc).1.supervision_rx
        message_rx := (ActorProperties.new name alloc).1.message_rx }) ∧
    ((ActorCell.new name alloc).1.1.inner = (ActorProperties.new name alloc).1.props) ∧
    (∀ c : ActorCell, c.clone = c) :=
  ⟨rfl, rfl, rfl, rfl, rfl, rfl, rfl, rfl, rfl,
   fun _ => rfl, fun _ => rfl, rfl, rfl, fun _ => rfl⟩

/-- Claim C3: a `call` whose message is successfully enqueued resolves
to exactly one of the three terminal outcomes of the race between the
reply slot's fate and the timeout: `Success v` when the value `v` is
written to the slot no later than the deadline (or with no timeout),
`NoReply` when the slot is dropped without a value no later than the
deadline (or with no timeout), and `Timeout` when the deadline elapses
strictly before the slot is resolved; the three conditions are
exhaustive and mutually exclusive, so no outcome is silently lost. -/
theorem call_resolves_one_outcome (α : Type) (p : ActorProperties)
    (m : BoxedMessage) (timeout : Option Nat) (fate : SlotFate α)
    (hopen : p.message.closed = false) :
    ((p.call m timeout fate).2 = Except.ok (resolveCall timeout fate)) ∧
    (∀ d, timeout = some d → d < fate.time →
      resolveCall timeout fate = CallResult.Timeout) ∧
    (∀ v t, fate = SlotFate.writtenAt v t →
      (timeout = none ∨ ∃ d, timeout = some d ∧ t ≤ d) →
      resolveCall timeout fate = CallResult.Success v) ∧
    (∀ t, fate = SlotFate.droppedAt t →
      (timeout = none ∨ ∃ d, timeout = some d ∧ t ≤ d) →
      resolveCall timeout fate = CallResult.NoReply) ∧
    ((∃ v, resolveCall timeout fate = CallResult.Success v) ∨
      resolveCall timeout fate = CallResult.NoReply ∨
      resolveCall timeout fate = CallResult.Timeout) := by
  refine ⟨?_, ?_, ?_, ?_, ?_⟩
  · simp [ActorProperties.call, ActorProperties.send_message, UnboundedChan.send, hopen]
  · rintro d rfl hd
    simp [resolveCall, hd]
  · rintro v t rfl hle
    rcases hle with rfl | ⟨d, rfl, hd⟩
    · rfl
    · simp [resolveCall, SlotFate.time, Nat.not_lt.mpr hd]
  · rintro t rfl hle
    rcases hle with rfl | ⟨d, rfl, hd⟩
    · rfl
    · simp [resolveCall, SlotFate.time, Nat.not_lt.mpr hd]
  · rcases timeout with _ | d
    · rcases fate with ⟨v, t⟩ | t
      · exact Or.inl ⟨v, rfl⟩
      · exact Or.inr (Or.inl rfl)
    · rcases fate with ⟨v, t⟩ | t
      · by_cases hd : d < t
        · exact Or.inr (Or.inr (by simp [resolveCall, SlotFate.time, hd]))
        · exact Or.inl ⟨v, by simp [resolveCall, SlotFate.time, hd]⟩
      · by_cases hd : d < t
        · exact Or.inr (Or.inr (by simp [resolveCall, SlotFate.time, hd]))
        · exact Or.inr (Or.inl (by simp [resolveCall, SlotFate.time, hd]))

/-- A concrete open-ported actor, for witnesses. -/
def sampleProps : ActorProperties := (ActorProperties.new none 0).1.props

/-- Witness for C3 at a concrete call: timeout 5, reply value written
at instant 3. -/
theorem call_resolves_one_outcome_witness :
    (sampleProps.call { payload := 0 } (some 5) (SlotFate.writtenAt (42 : Nat) 3)).2 =
      Except.ok (resolveCall (some 5) (SlotFate.writtenAt (42 : Nat) 3)) :=
  (call_resolves_one_outcome Nat sampleProps { payload := 0 } (some 5)
    (SlotFate.writtenAt 42 3) rfl).1

/-- The allocator counter after `n` constructions is `n` modulo 2^64. -/
theorem allocAfter_eq (n : Nat) : allocAfter n = n % 2 ^ 64 := by
  have h64 : (2 : Nat) ^ 64 = 18446744073709551616 := by norm_num
  induction n with
  | zero => simp [allocAfter]
  | succ k ih =>
      simp only [allocAfter, ActorProperties.new, ih, h64]
      omega

/-- The id assigned to the `n`-th construction is `n` modulo 2^64. -/
theorem assignedId_eq (n : Nat) : assignedId n = n % 2 ^ 64 := by
  have h1 : assignedId n = allocAfter n % 2 ^ 64 := rfl
  rw [h1, allocAfter_eq]
  exact Nat.mod_mod_of_dvd n dvd_rfl

/-- Claim C8: every construction draws its id from the single global
allocator by fetch-and-increment, so across a process lifetime of
fewer than 2^64 constructions the assigned ids are pairwise distinct
and strictly increasing in construction order; and a handle's id never
changes after construction — `get_id` is untouched by `set_status`,
`stop` and `terminate`. -/
theorem actor_ids_unique_monotone (i j : Nat) (hij : i < j) (hj : j < 2 ^ 64) :
    assignedId i < assignedId j ∧
    assignedId i ≠ assignedId j ∧
    (∀ (c : ActorCell) (s : ActorStatus), (c.set_status s).get_id = c.get_id) ∧
    (∀ c : ActorCell, (c.stop).1.get_id = c.get_id) ∧
    (∀ c : ActorCell, (ActorCell.terminate c).1.get_id = c.get_id) := by
  have hi : assignedId i = i := by
    rw [assignedId_eq]
    exact Nat.mod_eq_of_lt (lt_trans hij hj)
  have hjj : assignedId j = j := by
    rw [assignedId_eq]
    exact Nat.mod_eq_of_lt hj
  refine ⟨?_, ?_, fun c s => rfl, fun c => rfl, fun c => ?_⟩
  · rw [hi, hjj]; exact hij
  · rw [hi, hjj]; exact Nat.ne_of_lt hij
  · unfold ActorCell.terminate
    split <;> rfl

/-- Witness for C8 at the first two constructions. -/
theorem actor_ids_unique_monotone_witness :
    assignedId 0 < assignedId 1 :=
  (actor_ids_unique_monotone 0 1 (by norm_num) (by norm_num)).1

/-- Iteration indices in the send trace never precede the start
index. -/
theorem sendIntervalSends_le (env : IntervalEnv) :
    ∀ (fuel start j : Nat), j ∈ sendIntervalSends env fuel start → start ≤ j := by
  intro fuel
  induction fuel with
  | zero =>
      intro start j h
      simp [sendIntervalSends] at h
  | succ k ih =>
      intro start j h
      simp only [sendIntervalSends] at h
      by_cases hact : env.statusAt start ∈ ACTIVE_STATES
      · rw [if_pos hact] at h
        by_cases hf : env.sendFailsAt start = true
        · rw [if_pos hf] at h
          simp at h
          omega
        · rw [if_neg hf] at h
          rcases List.mem_cons.mp h with rfl | hj
          · exact Nat.le_refl j
          · exact Nat.le_of_succ_le (ih (start + 1) j hj)
      · rw [if_neg hact] at h
        simp at h

/-- Claim C7: along the `send_interval` loop, a send is attempted at an
iteration only when the status observed at that iteration's check is
in `ACTIVE_STATES`, and no send happens at any iteration after one
whose send failed (the loop breaks on the first error, never retrying
it). -/
theorem send_interval_guarded (env : IntervalEnv) (fuel start : Nat) :
    (∀ i, i ∈ sendIntervalSends env fuel start →
      env.statusAt i ∈ ACTIVE_STATES) ∧
    (∀ i j, i ∈ sendIntervalSends env fuel start → env.sendFailsAt i = true →
      j ∈ sendIntervalSends env fuel start → j ≤ i) := by
  induction fuel generalizing start with
  | zero =>
      constructor
      · intro i h
        simp [sendIntervalSends] at h
      · intro i j h _ _
        simp [sendIntervalSends] at h
  | succ k ih =>
      constructor
      · intro i h
        simp only [sendIntervalSends] at h
        by_cases hact : env.statusAt start ∈ ACTIVE_STATES
        · rw [if_pos hact] at h
          by_cases hf : env.sendFailsAt start = true
          · rw [if_pos hf] at h
            simp at h
            subst h
            exact hact
          · rw [if_neg hf] at h
            rcases List.mem_cons.mp h with rfl | hi
            · exact hact
            · exact (ih (start + 1)).1 i hi
        · rw [if_neg hact] at h
          simp at h
      · intro i j hi hfail hj
        simp only [sendIntervalSends] at hi hj
        by_cases hact : env.statusAt start ∈ ACTIVE_STATES
        · rw [if_pos hact] at hi hj
          by_cases hf : env.sendFailsAt start = true
          · rw [if_pos hf] at hi hj
            simp at hi hj
            omega
          · rw [if_neg hf] at hi hj
            rcases List.mem_cons.mp hi with rfl | hi2
            · exact absurd hfail hf
            · rcases List.mem_cons.mp hj with rfl | hj2
              · have h1 := sendIntervalSends_le env k (j + 1) i hi2
                omega
              · exact (ih (start + 1)).2 i j hi2 hfail hj2
        · rw [if_neg hact] at hi
          simp at hi

/-- A concrete loop environment, for the C7 witness: the actor is
always observed `Running` and every send fails. -/
def envSample : IntervalEnv :=
  { statusAt := fun _ => ActorStatus.Running
    sendFailsAt := fun _ => true }

/-- Witness for C7 in the concrete environment: the send attempted at
iteration 0 was guarded by an active status, and every send in the
trace happens no later than the failing one. -/
theorem send_interval_guarded_witness :
    envSample.statusAt 0 ∈ ACTIVE_STATES ∧ (0 : Nat) ≤ 0 :=
  ⟨(send_interval_guarded envSample 3 0).1 0 (by decide),
   (send_interval_guarded envSample 3 0).2 0 0 (by decide) (by decide) (by decide)⟩

/-- A matched sequence is empty or ends in an unlink. -/
theorem matchedFrom_split :
    ∀ (ops : List LinkOp) (k : Nat), matchedFrom k ops = true →
      (k = 0 ∧ ops = []) ∨ ∃ ops0, ops = ops0 ++ [LinkOp.unlink] := by
  intro ops
  induction ops with
  | nil =>
      intro k h
      exact Or.inl ⟨by simpa [matchedFrom] using h, rfl⟩
  | cons op rest ih =>
      intro k h
      cases op with
      | link =>
          rcases ih (k + 1) (by simpa [matchedFrom] using h) with ⟨hk, _⟩ | ⟨ops0, rfl⟩
          · exact absurd hk (Nat.succ_ne_zero k)
          · exact Or.inr ⟨LinkOp.link :: ops0, rfl⟩
      | unlink =>
          cases k with
          | zero => simp [matchedFrom] at h
          | succ k0 =>
              rcases ih k0 (by simpa [matchedFrom] using h) with ⟨_, rfl⟩ | ⟨ops0, rfl⟩
              · exact Or.inr ⟨[], rfl⟩
              · exact Or.inr ⟨LinkOp.unlink :: ops0, rfl⟩

/-- Running a concatenation of operation sequences is running them in
turn. -/
theorem runOps_append (c p : ActorId) :
    ∀ (xs ys : List LinkOp) (w : TreeWorld),
      w.runOps c p (xs ++ ys) = (w.runOps c p xs).runOps c p ys := by
  intro xs
  induction xs with
  | nil => intro ys w; rfl
  | cons op rest ih =>
      intro ys w
      cases op <;> simp [TreeWorld.runOps, ih]

/-- After `link(c, p)` the supervisor is in the child's children set
(sic: the source inserts the supervisor into `self`'s children) and
the child is in the supervisor's parents set. -/
theorem link_inserts (w : TreeWorld) (c p : ActorId) :
    p ∈ ((w.link c p) c).children ∧ c ∈ ((w.link c p) p).parents := by
  constructor
  · simp [TreeWorld.link, TreeWorld.upd, SupervisionTree.insert_child]
  · by_cases hpc : p = c
    · subst hpc
      simp [TreeWorld.link, TreeWorld.upd, SupervisionTree.insert_child,
        SupervisionTree.insert_parent]
    · simp [TreeWorld.link, TreeWorld.upd, SupervisionTree.insert_child,
        SupervisionTree.insert_parent, hpc]

/-- After `unlink(c, p)` neither membership holds, whatever the prior
state. -/
theorem unlink_removes (w : TreeWorld) (c p : ActorId) :
    p ∉ ((w.unlink c p) c).children ∧ c ∉ ((w.unlink c p) p).parents := by
  constructor
  · simp [TreeWorld.unlink, TreeWorld.upd, SupervisionTree.remove_child,
      SupervisionTree.remove_parent]
  · by_cases hpc : p = c
    · subst hpc
      simp [TreeWorld.unlink, TreeWorld.upd, SupervisionTree.remove_child,
        SupervisionTree.remove_parent]
    · simp [TreeWorld.unlink, TreeWorld.upd, SupervisionTree.remove_child,
        SupervisionTree.remove_parent, hpc]

/-- What the source's `link`/`unlink` actually produce, for every
world: `C.link(P)` puts `P` into `C`'s CHILDREN set and `C` into
`P`'s PARENTS set (the source inserts the supervisor into self's
children and self into the supervisor's parents); `C.unlink(P)`
removes both of those memberships, whatever the prior state; and a
matched sequence of the two calls leaves both absent when they were
absent at the start. -/
theorem link_unlink_actual (c p : ActorId) (w : TreeWorld) (ops : List LinkOp)
    (hc : p ∉ (w c).children) (hp : c ∉ (w p).parents)
    (hmatched : matchedFrom 0 ops = true) :
    (∀ w0 : TreeWorld,
      p ∈ ((w0.link c p) c).children ∧ c ∈ ((w0.link c p) p).parents) ∧
    (∀ w0 : TreeWorld,
      p ∉ ((w0.unlink c p) c).children ∧ c ∉ ((w0.unlink c p) p).parents) ∧
    p ∉ ((w.runOps c p ops) c).children ∧ c ∉ ((w.runOps c p ops) p).parents := by
  refine ⟨fun w0 => link_inserts w0 c p, fun w0 => unlink_removes w0 c p, ?_⟩
  rcases matchedFrom_split ops 0 hmatched with ⟨-, rfl⟩ | ⟨ops0, rfl⟩
  · exact ⟨hc, hp⟩
  · rw [runOps_append]
    simp only [TreeWorld.runOps]
    exact unlink_removes _ c p

/-- A world of actors with empty supervision trees. -/
def emptyWorld : TreeWorld := fun _ => SupervisionTree.default

/-- Claim C1: evaluating the code at the failing input — child 0 and
supervisor 1, both trees empty, one `link` call.  The claim (and the
spec's invariant) require the supervisor in the child's PARENTS set
and the child in the supervisor's CHILDREN set; the source instead
does `supervisor.tree.insert_parent(self)` and
`self.tree.insert_child(supervisor)`, so both claimed memberships are
false after `link` while the role-swapped ones hold.  This inverts
the orientation the rest of the code relies on: the supervisor's
children set never receives its linked child, so the documented
terminate cascade over `children` and the supervisor notification
over `parents` cannot reach them. -/
theorem link_orientation_bug :
    (1 : Nat) ∉ ((TreeWorld.link emptyWorld 0 1) 0).parents ∧
    (0 : Nat) ∉ ((TreeWorld.link emptyWorld 0 1) 1).children ∧
    (1 : Nat) ∈ ((TreeWorld.link emptyWorld 0 1) 0).children ∧
    (0 : Nat) ∈ ((TreeWorld.link emptyWorld 0 1) 1).parents := by
  refine ⟨?_, ?_, ?_, ?_⟩ <;>
    simp [TreeWorld.link, TreeWorld.upd, SupervisionTree.insert_child,
      SupervisionTree.insert_parent, emptyWorld, SupervisionTree.default]

end Ractor





